import Mathlib

/-!
Verification of the dstroot/postgres-api repository core against its
specification.  The development shallowly embeds the two core components
(the connection-limiting middleware in middleware/connlimit and the
process lifecycle loop in main.go) together with the two handler
functions the claims mention (GetProducts and DeleteProduct in
handlers/handlers.go, backed by model.Product).
-/

namespace PostgresApi

/-! ## Admission Limiter (middleware/connlimit, function MaxAllowed)

Source:

  func MaxAllowed(n int) negroni.HandlerFunc \x7b
      sem := make(chan struct\x7b\x7d, n)
      acquire := func() \x7b sem <- struct\x7b\x7d\x7b\x7d \x7d
      release := func() \x7b <-sem \x7d
      return negroni.HandlerFunc(func(w http.ResponseWriter, r *http.Request, next http.HandlerFunc) \x7b
          acquire() // before request
          next(w, r)
          release() // after request
      \x7d)
  \x7d

The only state the constructor creates is the buffered channel of
capacity n; the function performs no validation of n and has no error
return.  The wrapping handler runs three statements in order with no
defer statement, so a panic raised inside next unwinds past the
release call (the recovery middleware installed outside the limiter
catches the panic, but the token stays in sem). -/

/-- The limiter value MaxAllowed returns: its entire construction-time
state is the capacity of the semaphore channel.  Go has no error path
here; construction is total. -/
structure Limiter where
  cap : Nat
  deriving DecidableEq, Repr

/-- Embedding of connlimit.MaxAllowed: builds the semaphore channel of
capacity n and returns the wrapping handler.  No validation is
performed on n. -/
def MaxAllowed (n : Nat) : Limiter := ⟨n⟩

/-- Spec-side constructor, modelled from the words of the specification
contract: maximum concurrent admissions N is a positive integer, and
N=0 is invalid and must be rejected at construction.  Used only to
compare against the source constructor MaxAllowed. -/
def MaxAllowedSpec (n : Nat) : Option Limiter :=
  if n = 0 then none else some ⟨n⟩

/-- How one invocation of the wrapping handler ends: next(w, r) either
returns (normal responses and error responses alike are ordinary
returns in Go) or panics. -/
inductive HandlerExit
  | normal
  | panics
  deriving DecidableEq, Repr

/-- The observable actions of the wrapping handler. -/
inductive Action
  | acquire
  | invokeNext
  | release
  | writeResponse
  deriving DecidableEq, Repr

/-- Trace of one request through the wrapping handler, following the
three statements of the source body: acquire, next(w, r), release.
There is no defer, so when next panics the trailing release statement
never runs. -/
def wrappedHandlerTrace : HandlerExit → List Action
  | .normal => [.acquire, .invokeNext, .release]
  | .panics => [.acquire, .invokeNext]

/-- Semaphore occupancy left behind by a sequence of completed handler
invocations, starting from an empty pool: each trace adds its acquires
and removes its releases. -/
def occupancyAfter (exits : List HandlerExit) : Nat :=
  exits.foldl
    (fun h e =>
      h + (wrappedHandlerTrace e).count Action.acquire
        - (wrappedHandlerTrace e).count Action.release) 0

/-- Interleaved state of the limiter across concurrent requests:
inside counts requests currently executing next(w, r); leaked counts
tokens stranded in the channel by panicked handlers (whose release was
skipped).  Tokens held in the channel = inside + leaked. -/
structure LimState where
  inside : Nat
  leaked : Nat
  deriving DecidableEq, Repr

/-- Small-step semantics of the wrapping handler over the buffered
channel of capacity N.  A send on a buffered channel succeeds only
while fewer than N tokens are held, otherwise the sender blocks: enter
is enabled only when inside + leaked < N.  A handler that returns
performs the receive (release); a handler that panics leaves its token
in the channel. -/
inductive LimStep (N : Nat) : LimState → LimState → Prop
  | enter (s : LimState) :
      s.inside + s.leaked < N → LimStep N s ⟨s.inside + 1, s.leaked⟩
  | exitNormal (s : LimState) :
      0 < s.inside → LimStep N s ⟨s.inside - 1, s.leaked⟩
  | exitPanic (s : LimState) :
      0 < s.inside → LimStep N s ⟨s.inside - 1, s.leaked + 1⟩

/-- States reachable from the process-start state (empty channel, no
request inside). -/
inductive LimReach (N : Nat) : LimState → Prop
  | init : LimReach N ⟨0, 0⟩
  | step {s t : LimState} : LimReach N s → LimStep N s t → LimReach N t

/-! ## Process Lifecycle Controller (main.go, functions run and main)

run starts ListenAndServe on a goroutine that sends its terminal error
on a buffered channel, then loops on a select over that channel and a
SIGINT/SIGTERM signal channel.  The signal branch logs, builds a
context with a 5 second timeout, calls api.Server.Shutdown(ctx) twice
(the first result is discarded, only the second is checked), and on
success logs and calls os.Exit(0); any branch that returns an error
makes main log FATAL and call os.Exit(1). -/

/-- An error value as compared by the run loop: either the
http.ErrServerClosed sentinel or some other error (Go compares error
identity, so a bind failure is never the sentinel). -/
inductive GoError
  | errServerClosed
  | other (msg : String)
  deriving DecidableEq, Repr

/-- The two event sources of the select statement in run. -/
inductive LoopEvent
  | serverErr (e : GoError)
  | signal
  deriving DecidableEq, Repr

/-- What one iteration of the run loop does to the process: keep
looping, exit cleanly via os.Exit(0), or return a wrapped fatal error
to main. -/
inductive ProcOutcome
  | continues
  | exitOk
  | fatal (wrap : String)
  deriving DecidableEq, Repr

/-- The drain deadline passed to context.WithTimeout in the signal
branch: 5*time.Second. -/
def shutdownDeadlineSeconds : Nat := 5

/-- The signals registered with signal.Notify in run. -/
def watchedSignals : List String := ["SIGINT", "SIGTERM"]

/-- One iteration of the select loop in run (main.go lines 71 to 90).
shutdownErr1 and shutdownErr2 are the results of the first and second
Shutdown calls; the source discards the first and checks only the
second.  The returned Nat counts the invocations of
api.Server.Shutdown performed by the iteration. -/
def processEvent (ev : LoopEvent) (shutdownErr1 shutdownErr2 : Option String) :
    Nat × ProcOutcome :=
  match ev with
  | .serverErr e =>
      if e = GoError.errServerClosed then (0, .continues)
      else (0, .fatal "http server error")
  | .signal =>
      match shutdownErr1, shutdownErr2 with
      | _, some _ => (2, .fatal "server could not shutdown")
      | _, none => (2, .exitOk)

/-- What main does with the outcome of run: none while run keeps
looping; otherwise some (loggedFatal, exitCode).  run returning an
error makes main log FATAL and exit 1; os.Exit(0) inside run ends the
process with code 0 and no FATAL line. -/
def mainExit : ProcOutcome → Option (Bool × Nat)
  | .continues => none
  | .exitOk => some (false, 0)
  | .fatal _ => some (true, 1)

/-- The wrap label run applies to an app initialization failure
(errors.Wrap(err, "initialization error") on the app.Initialize error
path, before the server goroutine is started). -/
def initErrorWrap : String := "initialization error"

/-- How api.Server.ListenAndServe can end: the initial net.Listen bind
can fail before the accept loop starts, or the serve loop itself ends
(with http.ErrServerClosed after a Shutdown, or another error). -/
inductive ServeFailure
  | bindFailed (msg : String)
  | serveFailed (e : GoError)
  deriving DecidableEq, Repr

/-- The single error value ListenAndServe returns; a bind failure is
an ordinary error, never the http.ErrServerClosed sentinel. -/
def listenAndServeError : ServeFailure → GoError
  | .bindFailed msg => .other msg
  | .serveFailed e => e

/-- The goroutine started by run sends the ListenAndServe result on
errChan: the failure reaches the caller only as a later run-loop
event, never as a synchronous return from the start of serving. -/
def startServerDelivery (f : ServeFailure) : LoopEvent :=
  .serverErr (listenAndServeError f)

/-! ## Handlers (handlers/handlers.go) and the products table
(Product in the model package) -/

/-- Numeric value of a decimal digit character. -/
def digitVal (c : Char) : Nat := c.toNat - 48

/-- Value of a nonempty all-digit character list read in base 10. -/
def parseDigits (cs : List Char) : Nat :=
  cs.foldl (fun n c => 10 * n + digitVal c) 0

/-- strconv.Atoi as the handlers use it: an optional sign followed by
at least one digit parses to its value, anything else is a syntax
error and GetProducts discards the error, while Atoi returns 0
alongside a syntax error, so a failed parse acts as 0 there.  (Go
clamps an out-of-range numeral to MinInt64/MaxInt64 and reports it
with ErrRange; GetProducts discards that error too, and the clamped
and unclamped values sit on the same side of every bound GetProducts
compares against — 0, 1 and 50 — so this value-only view is exact for
GetProducts.  DeleteProduct checks the error, so its embedding uses
goAtoiChecked below, which models the full success path.) -/
def goAtoi (s : String) : Option Int :=
  match s.data with
  | [] => none
  | c :: rest =>
      if c = '-' then
        if rest ≠ [] ∧ rest.all Char.isDigit then
          some (-(parseDigits rest : Int))
        else none
      else if c = '+' then
        if rest ≠ [] ∧ rest.all Char.isDigit then
          some ((parseDigits rest : Int))
        else none
      else
        if (c :: rest).all Char.isDigit then
          some ((parseDigits (c :: rest) : Int))
        else none

/-- The success path of strconv.Atoi on a 64-bit platform, as seen by
a caller that checks the returned error: a syntactically valid numeral
whose value fits in int64 parses to its value; anything else — a
syntax error, or an out-of-range numeral, which Go returns clamped but
together with ErrRange — counts as failure. -/
def goAtoiChecked (s : String) : Option Int :=
  match goAtoi s with
  | none => none
  | some v => if v < -(2 ^ 63) ∨ 2 ^ 63 - 1 < v then none else some v

/-- The (count, start) pair GetProducts forwards to model.GetMany,
computed from the raw query strings exactly as the handler does:
Atoi with the error discarded (so missing or non-numeric input acts as
0), then count is replaced by 50 when count > 50 or count < 1, and
start is replaced by 0 when start < 0. -/
def getProductsQuery (countStr startStr : String) : Int × Int :=
  let count : Int := (goAtoi countStr).getD 0
  let start : Int := (goAtoi startStr).getD 0
  let count := if count > 50 ∨ count < 1 then 50 else count
  let start := if start < 0 then 0 else start
  (count, start)

/-- A row of the products table.  The float64 price is carried as a
rational payload: Delete never computes with it, it only travels with
the row. -/
structure Product where
  id : Int
  name : String
  price : Rat
  deriving DecidableEq

/-- Product.Delete runs db.Exec("DELETE FROM products WHERE id=$1"),
which removes every row with the given id, ignores the affected-row
count, and returns an error only when the database itself fails. -/
def productDelete (table : List Product) (pid : Int) (dbErr : Option String) :
    Except String (List Product) :=
  match dbErr with
  | some e => .error e
  | none => .ok (table.filter (fun r => r.id != pid))

/-- The DeleteProduct handler: Atoi on the id route parameter with its
error checked, so a syntactically malformed or out-of-int64-range id
gets 400; a database error gets 500; otherwise 200 with
\x7b"result":"success"\x7d.  Returns the response (status code and
JSON body) paired with the table state after the request. -/
def deleteProduct (table : List Product) (idParam : String) (dbErr : Option String) :
    (Nat × String) × List Product :=
  match goAtoiChecked idParam with
  | none => ((400, "\x7b\"error\":\"Invalid product ID\"\x7d"), table)
  | some pid =>
      match productDelete table pid dbErr with
      | .error e => ((500, "\x7b\"error\":\"" ++ e ++ "\"\x7d"), table)
      | .ok t2 => ((200, "\x7b\"result\":\"success\"\x7d"), t2)

/-! ## Theorems about the Admission Limiter -/

/-- Unfolding the occupancy fold: a sequence of completed handler
invocations leaves behind exactly one stranded token per panic. -/
theorem occupancy_foldl_eq (exits : List HandlerExit) :
    ∀ h : Nat,
      exits.foldl
        (fun h e =>
          h + (wrappedHandlerTrace e).count Action.acquire
            - (wrappedHandlerTrace e).count Action.release) h
        = h + exits.count HandlerExit.panics := by
  induction exits with
  | nil => intro h; simp
  | cons e t ih =>
      intro h
      rw [List.foldl_cons, ih]
      cases e with
      | normal =>
          rw [List.count_cons_of_ne (by decide : HandlerExit.panics ≠ HandlerExit.normal)]
          show h + 1 - 1 + t.count HandlerExit.panics = h + t.count HandlerExit.panics
          omega
      | panics =>
          rw [List.count_cons_self]
          show h + 1 - 0 + t.count HandlerExit.panics
              = h + (t.count HandlerExit.panics + 1)
          omega

/-- C1 counterexample: on the panic exit path the wrapping handler
performs its acquire but never reaches the release statement (there is
no defer in MaxAllowed), so a single panicking handler leaves pool
occupancy at 1, not 0. -/
theorem maxAllowed_panic_skips_release :
    (wrappedHandlerTrace HandlerExit.panics).count Action.acquire = 1 ∧
    (wrappedHandlerTrace HandlerExit.panics).count Action.release = 0 ∧
    occupancyAfter [HandlerExit.panics] = 1 := by
  decide

/-- C1 (amended): release executes exactly once per acquire when the
wrapped handler returns, normally or with an error response; when the
handler panics the release is skipped and the slot leaks, so pool
occupancy after any sequence of handler completions equals the number
of panics, returning to zero exactly when no handler panicked. -/
theorem maxAllowed_release_balance (exits : List HandlerExit) :
    (wrappedHandlerTrace HandlerExit.normal).count Action.acquire = 1 ∧
    (wrappedHandlerTrace HandlerExit.normal).count Action.release = 1 ∧
    (wrappedHandlerTrace HandlerExit.panics).count Action.release = 0 ∧
    occupancyAfter exits = exits.count HandlerExit.panics := by
  refine ⟨by decide, by decide, by decide, ?_⟩
  simpa [occupancyAfter] using occupancy_foldl_eq exits 0

/-- Every step of the limiter keeps the number of held tokens (inside
plus leaked) at or below the channel capacity. -/
theorem limStep_preserves_bound (N : Nat) {s t : LimState}
    (hs : LimStep N s t) (h : s.inside + s.leaked ≤ N) :
    t.inside + t.leaked ≤ N := by
  cases hs with
  | enter hlt =>
      show s.inside + 1 + s.leaked ≤ N
      omega
  | exitNormal hpos =>
      show s.inside - 1 + s.leaked ≤ N
      omega
  | exitPanic hpos =>
      show s.inside - 1 + (s.leaked + 1) ≤ N
      omega

/-- In every reachable state the channel holds at most N tokens. -/
theorem limReach_tokens_le (N : Nat) {s : LimState} (h : LimReach N s) :
    s.inside + s.leaked ≤ N := by
  induction h with
  | init => exact Nat.zero_le N
  | step _ hs ih => exact limStep_preserves_bound N hs ih

/-- C2: for every capacity N ≥ 1 and every reachable interleaved state
(hence under any burst of M > N concurrent requests), at most N
requests are inside the wrapped handler simultaneously, and the number
of tokens held never exceeds N. -/
theorem maxAllowed_concurrency_bound (N : Nat) (hN : 1 ≤ N) (s : LimState)
    (h : LimReach N s) : s.inside ≤ N ∧ s.inside + s.leaked ≤ N :=
  ⟨Nat.le_trans (Nat.le_add_right s.inside s.leaked) (limReach_tokens_le N h),
   limReach_tokens_le N h⟩

/-- Witness for C2 at capacity 2 with one request admitted. -/
theorem maxAllowed_concurrency_bound_witness :
    (1 : Nat) ≤ 2 ∧ 1 + 0 ≤ 2 :=
  maxAllowed_concurrency_bound 2 (by decide) ⟨1, 0⟩
    (LimReach.step LimReach.init (LimStep.enter ⟨0, 0⟩ (by decide)))

/-- C4 counterexample: MaxAllowed applied to 0 returns a limiter (the
Go function has no error path and performs no validation), while the
spec-side constructor rejects 0; construction with N=0 does not
fail. -/
theorem maxAllowed_zero_not_rejected :
    some (MaxAllowed 0) ≠ MaxAllowedSpec 0 ∧ MaxAllowedSpec 0 = none := by
  decide

/-- C4 (amended): the constructor performs no validation and cannot
fail: applied to 0 it returns a limiter of capacity 0, under which no
request is ever admitted — every acquire from the initial state blocks
forever instead of construction being rejected. -/
theorem maxAllowed_accepts_zero (t : LimState) :
    (MaxAllowed 0).cap = 0 ∧ ¬ LimStep (MaxAllowed 0).cap ⟨0, 0⟩ t := by
  refine ⟨rfl, fun hs => ?_⟩
  cases hs with
  | enter hlt => exact Nat.not_lt_zero _ hlt
  | exitNormal hpos => exact Nat.not_lt_zero _ hpos
  | exitPanic hpos => exact Nat.not_lt_zero _ hpos

/-- Witness for C4 (amended) at the one-step target state. -/
theorem maxAllowed_accepts_zero_witness :
    ¬ LimStep (MaxAllowed 0).cap ⟨0, 0⟩ ⟨1, 0⟩ :=
  (maxAllowed_accepts_zero ⟨1, 0⟩).2

/-- C8: the wrapping handler writes nothing to the response on its own
behalf and, once admitted, invokes the wrapped handler exactly once on
both exit paths; and the only step that admits a request (increases
inside) is enabled exactly when fewer than N tokens are held — a
request facing a full pool is delayed, never rejected. -/
theorem maxAllowed_only_delays :
    (∀ e : HandlerExit,
        (wrappedHandlerTrace e).count Action.invokeNext = 1 ∧
        (wrappedHandlerTrace e).count Action.writeResponse = 0) ∧
    ∀ (N : Nat) (s t : LimState), LimStep N s t → s.inside < t.inside →
      s.inside + s.leaked < N := by
  constructor
  · intro e; cases e <;> decide
  · intro N s t hs hlt
    cases hs with
    | enter h => exact h
    | exitNormal h => dsimp only at hlt; omega
    | exitPanic h => dsimp only at hlt; omega

/-- Witness for C8: an admission step at capacity 2 from the empty
state happens with 0 tokens held. -/
theorem maxAllowed_only_delays_witness :
    (0 : Nat) + 0 < 2 :=
  maxAllowed_only_delays.2 2 ⟨0, 0⟩ ⟨1, 0⟩
    (LimStep.enter ⟨0, 0⟩ (by decide)) (by decide)

/-! ## Theorems about the Process Lifecycle Controller -/

/-- C3 code-bug evaluation: on a termination signal with a clean
drain, one iteration of the run loop invokes api.Server.Shutdown twice
(the duplicated calls at main.go lines 83 and 84, the first result
discarded) before exiting, where the specification requires exactly
one invocation. -/
theorem shutdown_invoked_twice_on_signal :
    (processEvent LoopEvent.signal none none).1 = 2 ∧
    (processEvent LoopEvent.signal none none).2 = ProcOutcome.exitOk := by
  decide

/-- C5 counterexample: a concrete bind failure is delivered through
the error channel and receives the same fatal wrap as a genuine
runtime serving error, "http server error", not the initialization
class: the report is neither synchronous nor distinct from runtime
serving errors. -/
theorem bind_failure_not_distinct :
    (processEvent (startServerDelivery (ServeFailure.bindFailed
        "listen tcp :8000: bind: address already in use")) none none).2
      = ProcOutcome.fatal "http server error" ∧
    (processEvent (startServerDelivery (ServeFailure.serveFailed
        (GoError.other "accept tcp: unexpected close"))) none none).2
      = ProcOutcome.fatal "http server error" ∧
    "http server error" ≠ initErrorWrap := by
  decide

/-- C5 (amended): a listener bind failure is not reported
synchronously to the caller: ListenAndServe runs on a goroutine and
sends the bind error on the error channel, where the run loop handles
it exactly like a later runtime serving error, wrapping it as the
fatal "http server error" — a class distinct from the
"initialization error" wrap that is reserved for app setup failures —
after which main logs and the process exits non-zero. -/
theorem bind_failure_reported_as_runtime_error (msg : String) :
    startServerDelivery (ServeFailure.bindFailed msg)
        = LoopEvent.serverErr (GoError.other msg) ∧
    (processEvent (startServerDelivery (ServeFailure.bindFailed msg)) none none).2
        = ProcOutcome.fatal "http server error" ∧
    mainExit (processEvent (startServerDelivery (ServeFailure.bindFailed msg))
        none none).2 = some (true, 1) ∧
    "http server error" ≠ initErrorWrap := by
  refine ⟨rfl, ?_, ?_, by decide⟩
  · simp [startServerDelivery, listenAndServeError, processEvent]
  · simp [startServerDelivery, listenAndServeError, processEvent, mainExit]

/-- C6: an error from the serving loop that is not the
http.ErrServerClosed sentinel makes run return a fatal wrapped error,
after which main logs FATAL and the process exits with status 1; the
sentinel itself leaves the loop running, so the process does not
terminate on that event. -/
theorem run_fatal_on_unexpected_server_error (e : GoError)
    (h : e ≠ GoError.errServerClosed) (se1 se2 : Option String) :
    (processEvent (LoopEvent.serverErr e) se1 se2).2
        = ProcOutcome.fatal "http server error" ∧
    mainExit (processEvent (LoopEvent.serverErr e) se1 se2).2 = some (true, 1) ∧
    (processEvent (LoopEvent.serverErr GoError.errServerClosed) se1 se2).2
        = ProcOutcome.continues ∧
    mainExit (processEvent (LoopEvent.serverErr GoError.errServerClosed) se1 se2).2
        = none := by
  refine ⟨?_, ?_, rfl, rfl⟩ <;> simp [processEvent, mainExit, h]

/-- Witness for C6 at a concrete non-sentinel serving error. -/
theorem run_fatal_on_unexpected_server_error_witness :
    mainExit (processEvent
        (LoopEvent.serverErr (GoError.other "accept tcp: use of closed network connection"))
        none none).2 = some (true, 1) :=
  (run_fatal_on_unexpected_server_error
    (GoError.other "accept tcp: use of closed network connection")
    (by decide) none none).2.1

/-- C7: run registers SIGINT and SIGTERM; on a termination signal it
invokes graceful shutdown under a deadline fixed at 5 seconds; a clean
drain ends the process via os.Exit(0) with no fatal log, and a failing
Shutdown makes run return a fatal error so main logs and exits with
status 1. -/
theorem run_graceful_shutdown (se1 : Option String) :
    shutdownDeadlineSeconds = 5 ∧
    watchedSignals = ["SIGINT", "SIGTERM"] ∧
    mainExit (processEvent LoopEvent.signal se1 none).2 = some (false, 0) ∧
    ∀ s : String,
      (processEvent LoopEvent.signal se1 (some s)).2
          = ProcOutcome.fatal "server could not shutdown" ∧
      mainExit (processEvent LoopEvent.signal se1 (some s)).2 = some (true, 1) := by
  refine ⟨rfl, rfl, ?_, fun s => ⟨?_, ?_⟩⟩ <;> cases se1 <;> rfl

/-! ## Theorems about the handlers -/

/-- C9: whatever the raw count and start query strings, the pair
GetProducts forwards to the data layer has count between 1 and 50 and
start at least 0; a missing or non-numeric count (Atoi failure acting
as 0), a zero, negative, or greater-than-50 count is replaced by 50,
and a missing, non-numeric, or negative start is replaced by 0. -/
theorem getProducts_params_clamped (cs ss : String) :
    (1 ≤ (getProductsQuery cs ss).1 ∧ (getProductsQuery cs ss).1 ≤ 50 ∧
      0 ≤ (getProductsQuery cs ss).2) ∧
    (goAtoi cs = none → (getProductsQuery cs ss).1 = 50) ∧
    (∀ v : Int, goAtoi cs = some v → (v < 1 ∨ 50 < v) →
      (getProductsQuery cs ss).1 = 50) ∧
    (goAtoi ss = none → (getProductsQuery cs ss).2 = 0) ∧
    (∀ w : Int, goAtoi ss = some w → w < 0 → (getProductsQuery cs ss).2 = 0) := by
  have h1 : (getProductsQuery cs ss).1
      = if (goAtoi cs).getD 0 > 50 ∨ (goAtoi cs).getD 0 < 1 then 50
        else (goAtoi cs).getD 0 := rfl
  have h2 : (getProductsQuery cs ss).2
      = if (goAtoi ss).getD 0 < 0 then 0 else (goAtoi ss).getD 0 := rfl
  rw [h1, h2]
  refine ⟨⟨?_, ?_, ?_⟩, ?_, ?_, ?_, ?_⟩
  · split <;> omega
  · split <;> omega
  · split <;> omega
  · intro h; simp [h]
  · intro v hv hcond
    simp only [hv, Option.getD_some]
    rw [if_pos (by omega)]
  · intro h; simp [h]
  · intro w hw hlt
    simp only [hw, Option.getD_some]
    rw [if_pos hlt]

/-- Witness for C9 with a non-numeric count and a negative start. -/
theorem getProducts_params_witness :
    goAtoi "abc" = none ∧ (getProductsQuery "abc" "-7").1 = 50 ∧
    0 ≤ (getProductsQuery "abc" "-7").2 :=
  ⟨by decide, (getProducts_params_clamped "abc" "-7").2.1 (by decide),
    (getProducts_params_clamped "abc" "-7").1.2.2⟩

/-- Filtering a list twice with the same predicate equals filtering it
once. -/
theorem filter_filter_self {α : Type} (p : α → Bool) (l : List α) :
    (l.filter p).filter p = l.filter p := by
  induction l with
  | nil => rfl
  | cons a t ih =>
      by_cases h : p a = true
      · simp [List.filter_cons, h, ih]
      · simp [List.filter_cons, h, ih]

/-- C10: for a well-formed integer id (one strconv.Atoi accepts
without error, so syntactically valid and within int64 range) and
absent a database failure, DeleteProduct responds 200 with body
\x7b"result":"success"\x7d whatever the table contents — the row need
not exist — and the delete is idempotent: repeating it returns the
same successful response and leaves the table in the same state. -/
theorem deleteProduct_success_idempotent (t : List Product) (s : String)
    (pid : Int) (h : goAtoiChecked s = some pid) :
    (deleteProduct t s none).1 = (200, "\x7b\"result\":\"success\"\x7d") ∧
    deleteProduct (deleteProduct t s none).2 s none
      = ((200, "\x7b\"result\":\"success\"\x7d"), (deleteProduct t s none).2) := by
  simp [deleteProduct, productDelete, h, filter_filter_self]

/-- Witness for C10 on an empty table, where the deleted row does not
exist. -/
theorem deleteProduct_success_witness :
    goAtoiChecked "7" = some 7 ∧
    (deleteProduct [] "7" none).1 = (200, "\x7b\"result\":\"success\"\x7d") :=
  ⟨by decide, (deleteProduct_success_idempotent [] "7" 7 (by decide)).1⟩

end PostgresApi
